import Mathlib

/-
  Verification of the resolution-and-assembly pipeline of
  personalfme-groupalarm2 (src/trigger_groupalarm.py).

  The Python code manipulates untyped JSON/YAML trees, performs HTTP
  lookups returning JSON catalogs, and assembles a JSON request body.
  We embed JSON values shallowly, model each HTTP response as a record
  (status, Content-Type header, parsed JSON body), and translate each
  Python function into a total Lean function returning
  `Except GAError α × List String` — the `List String` collects the
  diagnostics the code prints to stderr, and `GAError` models the
  exceptions the code can raise.  Time is modelled at second resolution
  as an integer count of seconds since the Unix epoch (a single instant
  per invocation stands for the `datetime.utcnow()` calls).
-/

namespace GA

/-- A JSON value: the shape of every payload exchanged with the service
(parsed YAML documents share the same shape). -/
inductive Json where
  | null
  | bool (b : Bool)
  | num (n : Int)
  | str (s : String)
  | arr (elems : List Json)
  | obj (fields : List (String × Json))

/-- First-match lookup in a JSON object's field list.  Parsed JSON objects
have unique keys, so first-match agrees with Python dict lookup. -/
def objGet (fields : List (String × Json)) (key : String) : Option Json :=
  match fields with
  | [] => none
  | (k, v) :: rest => if k = key then some v else objGet rest key

/-- Field lookup through a `Json` value (`none` when not an object). -/
def Json.get (j : Json) (key : String) : Option Json :=
  match j with
  | .obj fields => objGet fields key
  | _ => none

/-- Python `key in d` membership on a JSON object. -/
def Json.hasKey (j : Json) (key : String) : Bool :=
  (j.get key).isSome

/-- Python truthiness of a JSON-derived value (`if x:`):
None, False, 0, "", [] and {} are falsy. -/
def Json.truthy : Json → Bool
  | .null => false
  | .bool b => b
  | .num n => n != 0
  | .str s => s != ""
  | .arr elems => !elems.isEmpty
  | .obj fields => !fields.isEmpty

/-- Python `str()` of a JSON-derived value, as used in f-string logging.
Container rendering (CPython `repr`) is abstracted by a fixed tag; no
theorem depends on it. -/
def pyStr : Json → String
  | .null => "None"
  | .bool true => "True"
  | .bool false => "False"
  | .num n => toString n
  | .str s => s
  | .arr _ => "<list>"
  | .obj _ => "<dict>"

/-- The exceptions the Python code can raise, kept structurally.
`missingEntities` models the `ValueError` raised for unresolvable names:
it carries the missing names as a duplicate-free list (the Python code
joins a `set`, whose iteration order is unspecified, into the message). -/
inductive GAError where
  | schemaError (violations : List String)
  | environmentError (msg : String)
  | valueError (msg : String)
  | missingEntities (subEndpoint : String) (organizationId : Int) (missing : List String)
  | httpError (status : Nat)
  | keyError (key : String)
  | typeError (msg : String)
  | indexError
deriving DecidableEq

/-- An HTTP response: status code, optional Content-Type header and the
body parsed as JSON (`requests.Response.json()`). -/
structure Response where
  status : Nat
  contentType : Option String
  jsonBody : Json

/-- Python `str.startswith`: a prefix test on the character sequence. -/
def pyStartsWith (s pre : String) : Bool :=
  pre.toList.isPrefixOf s.toList

/-- Whether the Content-Type header is present and starts with
`application/json` (the test in `_get_json_response`). -/
def isJsonContentType : Option String → Bool
  | some ct => pyStartsWith ct "application/json"
  | none => false

/-- Model of `requests.Response.raise_for_status`: raises `HTTPError` exactly for
status codes 400–599. -/
def raise_for_status (r : Response) : Except GAError Unit :=
  if 400 ≤ r.status ∧ r.status < 600 then .error (.httpError r.status) else .ok ()

/-- Embedding of `_get_json_response`: returns the parsed body when the Content-Type is
JSON (else `None`), logging a service-reported diagnostic when the body
is an object with a falsy `success` and an `error` field.  Reading
`response["message"]` raises `KeyError` when the key is absent.  When the
body is a list, Python membership tests scan its elements and then
`response["success"]` raises `TypeError`. -/
def get_json_response (r : Response) : Except GAError (Option Json) × List String :=
  if isJsonContentType r.contentType then
    match r.jsonBody with
    | Json.obj fields =>
        match objGet fields "success", objGet fields "error" with
        | some succVal, some errVal =>
            if succVal.truthy then (.ok (some (Json.obj fields)), [])
            else
              match objGet fields "message" with
              | some msgVal =>
                  (.ok (some (Json.obj fields)),
                   ["Information vom Server Groupalarm.com: " ++ pyStr msgVal
                      ++ ", Details: " ++ pyStr errVal])
              | none => (.error (.keyError "message"), [])
        | _, _ => (.ok (some (Json.obj fields)), [])
    | Json.arr elems =>
        if (elems.any (fun j => match j with | Json.str s => s = "success" | _ => false))
            ∧ (elems.any (fun j => match j with | Json.str s => s = "error" | _ => false)) then
          (.error (.typeError "list indices must be integers"), [])
        else (.ok (some (Json.arr elems)), [])
    | other => (.ok (some other), [])
  else (.ok none, [])

/-- Python iteration `for entry in x` over a JSON-derived value:
lists yield elements, dicts yield their keys, strings yield their
characters, everything else raises `TypeError`. -/
def pyIter : Json → Except GAError (List Json)
  | Json.arr elems => .ok elems
  | Json.obj fields => .ok (fields.map (fun kv => Json.str kv.1))
  | Json.str s => .ok (s.toList.map (fun c => Json.str (String.singleton c)))
  | _ => .error (.typeError "object is not iterable")

/-- The catalog-iteration loop of `_get_entity_ids_from_endpoint`:
`the dict update keyed by entry name storing entry id` for each entry.  Python
evaluates the right-hand side first, so a missing `id` key raises before
a missing `name` key; a non-dict entry raises `TypeError`.  Entries whose
`name` is not a string get a non-string dict key, which can never collide
with a requested (string) name, so they are dropped from the model. -/
def entriesToMap : List Json → Except GAError (List (String × Json))
  | [] => .ok []
  | Json.obj fields :: rest =>
      match objGet fields "id" with
      | none => .error (.keyError "id")
      | some idVal =>
          match objGet fields "name" with
          | none => .error (.keyError "name")
          | some nameVal =>
              match entriesToMap rest with
              | .error e => .error e
              | .ok m =>
                  match nameVal with
                  | Json.str s => .ok ((s, idVal) :: m)
                  | _ => .ok m
  | _ :: _ => .error (.typeError "entry indices must be a particular type")

/-- Lookup in the built entity map with Python dict semantics: a later
assignment to the same key overwrites an earlier one (last wins). -/
def dictLookup (m : List (String × Json)) (key : String) : Option Json :=
  match m with
  | [] => none
  | (k, v) :: rest =>
      match dictLookup rest key with
      | some v2 => some v2
      | none => if k = key then some v else none

/-- Embedding of `_get_entity_ids_from_endpoint`: fetch the full catalog for the
endpoint, build the name-to-id map, collect the ids of the requested
names in input order, and fail with the full set of missing names when
any requested name is absent.  The API token, proxy configuration and
organization query-parameter name only shape the outgoing URL/headers and
are not semantically observable here; the response `r` stands for the
transport's answer. -/
def get_entity_ids_from_endpoint (entity_names : List String) (organization_id : Int)
    (sub_endpoint : String) (r : Response) :
    Except GAError (List Json) × List String :=
  match get_json_response r with
  | (.error e, logs) => (.error e, logs)
  | (.ok json_response, logs) =>
    match raise_for_status r with
    | .error e => (.error e, logs)
    | .ok _ =>
      match (match json_response with
             | none => Except.error (GAError.typeError "NoneType object is not iterable")
             | some j => pyIter j) with
      | .error e => (.error e, logs)
      | .ok entries =>
        match entriesToMap entries with
        | .error e => (.error e, logs)
        | .ok entity_id_map =>
          let entity_ids := entity_names.filterMap (fun n => dictLookup entity_id_map n)
          if entity_ids.length ≠ entity_names.length then
            (.error (.missingEntities sub_endpoint organization_id
              ((entity_names.filter (fun n => (dictLookup entity_id_map n).isNone)).dedup)),
             logs)
          else (.ok entity_ids, logs)

/-- The JSON body of a well-formed catalog response: an array of
`{name, id}` objects. -/
def catalogJson (catalog : List (String × Int)) : Json :=
  Json.arr (catalog.map (fun e => Json.obj [("name", Json.str e.1), ("id", Json.num e.2)]))

/-- A successful lookup response carrying a well-formed catalog. -/
def catalogResponse (catalog : List (String × Int)) : Response :=
  ⟨200, some "application/json", catalogJson catalog⟩

/-- Left-pad a numeral with zeros to the given width. -/
def padNum (width : Nat) (n : Nat) : String :=
  let s := toString n
  String.mk (List.replicate (width - s.length) '0') ++ s

/-- Convert a count of days since 1970-01-01 to a Gregorian (year, month,
day) triple (standard civil-from-days algorithm). -/
def civilFromDays (days : Nat) : Nat × Nat × Nat :=
  let z := days + 719468
  let era := z / 146097
  let doe := z % 146097
  let yoe := (doe - doe / 1460 + doe / 36524 - doe / 146096) / 365
  let y := yoe + era * 400
  let doy := doe - (365 * yoe + yoe / 4 - yoe / 100)
  let mp := (5 * doy + 2) / 153
  let d := doy - (153 * mp + 2) / 5 + 1
  let m := if mp < 10 then mp + 3 else mp - 9
  (if m ≤ 2 then y + 1 else y, m, d)

/-- Model of `datetime.isoformat` for a UTC instant given as seconds since the
Unix epoch (second resolution; `utcnow` microseconds are not modelled). -/
def isoformat (t : Int) : String :=
  let n := t.toNat
  let days := n / 86400
  let rem := n % 86400
  let c := civilFromDays days
  padNum 4 c.1 ++ "-" ++ padNum 2 c.2.1 ++ "-" ++ padNum 2 c.2.2 ++ "T"
    ++ padNum 2 (rem / 3600) ++ ":" ++ padNum 2 ((rem % 3600) / 60) ++ ":" ++ padNum 2 (rem % 60)

/-- Embedding of `to_isoformat_string`: ISO-8601 rendering with a `Z` suffix. -/
def to_isoformat_string (t : Int) : String :=
  isoformat t ++ "Z"

/-- The `proxy` section of the configuration file. -/
structure ProxyConfig where
  address : String
  port : Int
  username : Option String
  password : Option String

/-- Embedding of `_get_proxies`: builds the outbound HTTPS proxy URL map (transport
concern only; `user and password` uses Python string truthiness). -/
def get_proxies : Option ProxyConfig → List (String × String)
  | none => []
  | some pc =>
      let userT : Bool := match pc.username with | some u => u != "" | none => false
      let passT : Bool := match pc.password with | some p => p != "" | none => false
      let user := match pc.username with | some u => u | none => ""
      let password := match pc.password with | some p => p | none => ""
      if userT ∧ passT then
        [("https", "https://" ++ user ++ ":" ++ password ++ "@" ++ pc.address ++ ":"
           ++ toString pc.port)]
      else if userT then
        [("https", "https://" ++ user ++ "@" ++ pc.address ++ ":" ++ toString pc.port)]
      else
        [("https", "https://" ++ pc.address ++ ":" ++ toString pc.port)]

/-- The resolved `login` section: both credentials available. -/
structure LoginInfo where
  organizationId : Int
  apiToken : String

/-- The `resources` object of one alarm rule, as the untyped YAML dict
presents it: each key independently present or absent.  A `labels` entry
models the single-entry mapping label-name to amount that the schema
enforces. -/
structure ResourcesConfig where
  allUsers : Option Bool
  labels : Option (List (String × Int))
  units : Option (List String)
  users : Option (List String)
  scenarios : Option (List String)

/-- One alarm rule of the `alarms` mapping. -/
structure AlarmRule where
  resources : ResourcesConfig
  message : Option String
  messageTemplate : Option String
  closeEventInHours : Option Int

/-- A validated configuration with resolved credentials. -/
structure Config where
  login : LoginInfo
  proxy : Option ProxyConfig
  alarms : List (String × AlarmRule)

/-- The remote side of one invocation: the response each endpoint would
return (the code performs at most one GET per endpoint kind plus the
final POST to `/alarm` or `/alarm/preview`). -/
structure Network where
  units : Response
  labels : Response
  users : Response
  scenarios : Response
  templates : Response
  alarm : Response
  alarmPreview : Response

/-- Embedding of `get_ids_for_units`. -/
def get_ids_for_units (unit_names : List String) (organization_id : Int) (net : Network) :
    Except GAError (List Json) × List String :=
  get_entity_ids_from_endpoint unit_names organization_id "units" net.units

/-- Embedding of `get_ids_for_labels`. -/
def get_ids_for_labels (label_names : List String) (organization_id : Int) (net : Network) :
    Except GAError (List Json) × List String :=
  get_entity_ids_from_endpoint label_names organization_id "labels" net.labels

/-- Embedding of `get_ids_for_users`. -/
def get_ids_for_users (user_names : List String) (organization_id : Int) (net : Network) :
    Except GAError (List Json) × List String :=
  get_entity_ids_from_endpoint user_names organization_id "users" net.users

/-- Embedding of `get_ids_for_scenarios`. -/
def get_ids_for_scenarios (scenario_names : List String) (organization_id : Int) (net : Network) :
    Except GAError (List Json) × List String :=
  get_entity_ids_from_endpoint scenario_names organization_id "scenarios" net.scenarios

/-- Embedding of `get_alarm_template_id`: resolves the single template name against the
`alarms/templates` endpoint and takes element `[0]` of the result (which
provably has length one on success). -/
def get_alarm_template_id (alarm_template_name : String) (organization_id : Int)
    (net : Network) : Except GAError Json × List String :=
  match get_entity_ids_from_endpoint [alarm_template_name] organization_id
      "alarms/templates" net.templates with
  | (.error e, logs) => (.error e, logs)
  | (.ok ids, logs) =>
      match ids with
      | t :: _ => (.ok t, logs)
      | [] => (.error .indexError, logs)

/-- Embedding of `get_close_event_time_period`: `None` when `closeEventInHours` is not
configured, else `timedelta(hours=h)` modelled as `h * 3600` seconds.  The
`_check_alarm_code_has_config` guard is the `none` branch of the alarm
lookup. -/
def get_close_event_time_period (alarm_code : String) (config : Config) :
    Except GAError (Option Int) :=
  match config.alarms.lookup alarm_code with
  | none => .error (.valueError ("No alarm configuration for the alarm code " ++ alarm_code))
  | some rule =>
      match rule.closeEventInHours with
      | none => .ok none
      | some h => .ok (some (h * 3600))

/-- Embedding of `get_alarm_message`: a configured literal `message` wins (no network
call); otherwise a configured `messageTemplate` is resolved; otherwise the
run fails.  Returns `(alarm_template_id, message)`. -/
def get_alarm_message (alarm_code : String) (config : Config) (net : Network) :
    Except GAError (Option Json × Option String) × List String :=
  match config.alarms.lookup alarm_code with
  | none => (.error (.valueError ("No alarm configuration for the alarm code " ++ alarm_code)), [])
  | some alarm_config =>
      match alarm_config.message with
      | some m => (.ok (none, some m), [])
      | none =>
          match alarm_config.messageTemplate with
          | some tname =>
              match get_alarm_template_id tname config.login.organizationId net with
              | (.error e, logs) => (.error e, logs)
              | (.ok tid, logs) => (.ok (some tid, none), logs)
          | none => (.error (.valueError "Incorrect YAML configuration file: no alarm message"), [])

/-- Embedding of `get_alarm_resources`: selects the first populated resource variant in
the order allUsers / labels / units / users / scenarios (for `allUsers`
the flag must also be truthy) and resolves it to the wire payload.  The
`zip` pairing each labels amount with the id at the same position models
`label_ids[index]`, whose index is provably in range on success. -/
def get_alarm_resources (alarm_code : String) (config : Config) (net : Network) :
    Except GAError Json × List String :=
  match config.alarms.lookup alarm_code with
  | none => (.error (.valueError ("No alarm configuration for the alarm code " ++ alarm_code)), [])
  | some rule =>
      let resources := rule.resources
      if (match resources.allUsers with | some b => b | none => false) then
        (.ok (Json.obj [("allUsers", Json.bool true)]), [])
      else
        match resources.labels with
        | some entries =>
            let label_names := entries.map (fun e => e.1)
            match get_ids_for_labels label_names config.login.organizationId net with
            | (.error e, logs) => (.error e, logs)
            | (.ok label_ids, logs) =>
                let labels_array := (entries.zip label_ids).map
                  (fun p => Json.obj [("amount", Json.num p.1.2), ("labelID", p.2)])
                (.ok (Json.obj [("labels", Json.arr labels_array)]), logs)
        | none =>
            match resources.units with
            | some unit_names =>
                match get_ids_for_units unit_names config.login.organizationId net with
                | (.error e, logs) => (.error e, logs)
                | (.ok unit_ids, logs) => (.ok (Json.obj [("units", Json.arr unit_ids)]), logs)
            | none =>
                match resources.users with
                | some user_names =>
                    match get_ids_for_users user_names config.login.organizationId net with
                    | (.error e, logs) => (.error e, logs)
                    | (.ok user_ids, logs) =>
                        (.ok (Json.obj [("users", Json.arr user_ids)]), logs)
                | none =>
                    match resources.scenarios with
                    | some scenario_names =>
                        match get_ids_for_scenarios scenario_names
                            config.login.organizationId net with
                        | (.error e, logs) => (.error e, logs)
                        | (.ok scenario_ids, logs) =>
                            (.ok (Json.obj [("scenarios", Json.arr scenario_ids)]), logs)
                    | none =>
                        (.error (.valueError
                          "Incorrect YAML configuration file: no alarm resources"), [])

/-- The `elif alarm_template_id:` branch of the request assembly: the
`alarmTemplateID` field is added only when the resolved id is truthy. -/
def appendTemplate (fields : List (String × Json)) (alarm_template_id : Option Json) :
    List (String × Json) :=
  match alarm_template_id with
  | some tid => if tid.truthy then fields ++ [("alarmTemplateID", tid)] else fields
  | none => fields

/-- Embedding of `send_alarm`: resolve resources and message, assemble the request
body, dispatch it to `/alarm` (emit) or `/alarm/preview` (test), interpret
the response body, then raise for a failing status.  Returns the assembled
request body on success; `now` stands for the instant `datetime.utcnow()`
reads during the invocation. -/
def send_alarm (config : Config) (net : Network) (now : Int)
    (alarm_time_point alarm_code alarm_type : String) (do_emit_alarm : Bool) :
    Except GAError Json × List String :=
  match get_alarm_resources alarm_code config net with
  | (.error e, logs) => (.error e, logs)
  | (.ok alarm_resources, logs1) =>
    match get_alarm_message alarm_code config net with
    | (.error e, logs2) => (.error e, logs1 ++ logs2)
    | (.ok (alarm_template_id, message), logs2) =>
      let base : List (String × Json) :=
        [("alarmResources", alarm_resources),
         ("organizationID", Json.num config.login.organizationId),
         ("startTime", Json.str (to_isoformat_string now)),
         ("eventName", Json.str ("[Funkmelderalarm] Schleife " ++ alarm_code ++ " "
            ++ alarm_time_point ++ " (" ++ alarm_type ++ ")"))]
      match get_close_event_time_period alarm_code config with
      | .error e => (.error e, logs1 ++ logs2)
      | .ok close_event_time_period =>
        let withEnd :=
          match close_event_time_period with
          | some d =>
              if d ≠ 0 then
                base ++ [("scheduledEndTime", Json.str (to_isoformat_string (now + d)))]
              else base
          | none => base
        let withMsg :=
          match message with
          | some m =>
              if m ≠ "" then withEnd ++ [("message", Json.str m)]
              else appendTemplate withEnd alarm_template_id
          | none => appendTemplate withEnd alarm_template_id
        let request_body := Json.obj withMsg
        let r := if do_emit_alarm then net.alarm else net.alarmPreview
        match get_json_response r with
        | (.error e, logs3) => (.error e, logs1 ++ logs2 ++ logs3)
        | (.ok _, logs3) =>
            match raise_for_status r with
            | .error e => (.error e, logs1 ++ logs2 ++ logs3)
            | .ok _ => (.ok request_body, logs1 ++ logs2 ++ logs3)

/-!
## Schema validation (`YAML_CONFIG_FILE_SCHEMA` under cerberus with `require_all=True`)

The cerberus validator collects a list of violations; validation succeeds
iff the list is empty.  With `require_all=True` every field lacking
`required: False` is required, and a required field whose `excludes`
partner is present has its requiredness waived — so each `excludes`
cluster (the four resource variants; `message`/`messageTemplate`) must be
populated exactly once.  Unknown fields are rejected (`allow_unknown`
defaults to false); note the schema's `resources` object knows only
`allUsers`, `labels`, `scenarios` and `units` — there is no `users` key.
-/

/-- Validate the optional `login` section. -/
def validateLogin (j : Json) : List String :=
  match j with
  | .obj fields =>
      (fields.filterMap (fun kv =>
        if kv.1 = "organization-id" ∨ kv.1 = "api-token" then none
        else some ("login: unknown field " ++ kv.1)))
      ++ (match objGet fields "organization-id" with
          | none => []
          | some (.num _) => []
          | some _ => ["login.organization-id: must be of integer type"])
      ++ (match objGet fields "api-token" with
          | none => []
          | some (.str _) => []
          | some _ => ["login.api-token: must be of string type"])
  | _ => ["login: must be of dict type"]

/-- Validate the optional `proxy` section. -/
def validateProxy (j : Json) : List String :=
  match j with
  | .obj fields =>
      (fields.filterMap (fun kv =>
        if kv.1 = "address" ∨ kv.1 = "port" ∨ kv.1 = "username" ∨ kv.1 = "password" then none
        else some ("proxy: unknown field " ++ kv.1)))
      ++ (match objGet fields "address" with
          | none => ["proxy.address: required field"]
          | some (.str _) => []
          | some _ => ["proxy.address: must be of string type"])
      ++ (match objGet fields "port" with
          | none => ["proxy.port: required field"]
          | some (.num _) => []
          | some _ => ["proxy.port: must be of integer type"])
      ++ (match objGet fields "username" with
          | none => []
          | some (.str _) => []
          | some _ => ["proxy.username: must be of string type"])
      ++ (match objGet fields "password" with
          | none => []
          | some (.str _) => []
          | some _ => ["proxy.password: must be of string type"])
  | _ => ["proxy: must be of dict type"]

/-- Validate one entry of a `labels` list: a mapping with exactly one
field whose value is an integer of at least 1. -/
def validateLabelsEntry (j : Json) : List String :=
  match j with
  | .obj fields =>
      (if fields.length = 1 then [] else ["labels entry: must have exactly one field"])
      ++ fields.flatMap (fun kv =>
          match kv.2 with
          | .num n => if 1 ≤ n then [] else ["labels entry: amount must be at least 1"]
          | _ => ["labels entry: amount must be of integer type"])
  | _ => ["labels entry: must be of dict type"]

/-- Validate the `resources` object of one rule: only the four known
variant keys are allowed, exactly one must be present, and each is
type-checked. -/
def validateResources (j : Json) : List String :=
  match j with
  | .obj fields =>
      let presentCount :=
        (if (objGet fields "allUsers").isSome then 1 else 0)
        + (if (objGet fields "labels").isSome then 1 else 0)
        + (if (objGet fields "scenarios").isSome then 1 else 0)
        + (if (objGet fields "units").isSome then 1 else 0)
      (fields.filterMap (fun kv =>
        if kv.1 = "allUsers" ∨ kv.1 = "labels" ∨ kv.1 = "scenarios" ∨ kv.1 = "units" then none
        else some ("resources: unknown field " ++ kv.1)))
      ++ (if 2 ≤ presentCount then ["resources: mutually exclusive fields present"] else [])
      ++ (if presentCount = 0 then ["resources: required field missing"] else [])
      ++ (match objGet fields "allUsers" with
          | none => []
          | some (.bool _) => []
          | some _ => ["resources.allUsers: must be of boolean type"])
      ++ (match objGet fields "labels" with
          | none => []
          | some (.arr entries) => entries.flatMap validateLabelsEntry
          | some _ => ["resources.labels: must be of list type"])
      ++ (match objGet fields "scenarios" with
          | none => []
          | some (.arr entries) =>
              entries.flatMap (fun e =>
                match e with
                | .str _ => []
                | _ => ["resources.scenarios: entries must be of string type"])
          | some _ => ["resources.scenarios: must be of list type"])
      ++ (match objGet fields "units" with
          | none => []
          | some (.arr entries) =>
              entries.flatMap (fun e =>
                match e with
                | .str _ => []
                | _ => ["resources.units: entries must be of string type"])
          | some _ => ["resources.units: must be of list type"])
  | _ => ["resources: must be of dict type"]

/-- Validate one alarm rule. -/
def validateRule (j : Json) : List String :=
  match j with
  | .obj fields =>
      (fields.filterMap (fun kv =>
        if kv.1 = "resources" ∨ kv.1 = "message" ∨ kv.1 = "messageTemplate"
            ∨ kv.1 = "closeEventInHours" then none
        else some ("rule: unknown field " ++ kv.1)))
      ++ (match objGet fields "resources" with
          | none => ["rule.resources: required field"]
          | some r => validateResources r)
      ++ (if (objGet fields "message").isSome ∧ (objGet fields "messageTemplate").isSome then
            ["rule: message and messageTemplate are mutually exclusive"]
          else [])
      ++ (if (objGet fields "message").isNone ∧ (objGet fields "messageTemplate").isNone then
            ["rule: a message or messageTemplate is required"]
          else [])
      ++ (match objGet fields "message" with
          | none => []
          | some (.str _) => []
          | some _ => ["rule.message: must be of string type"])
      ++ (match objGet fields "messageTemplate" with
          | none => []
          | some (.str _) => []
          | some _ => ["rule.messageTemplate: must be of string type"])
      ++ (match objGet fields "closeEventInHours" with
          | none => []
          | some (.num n) => if 0 ≤ n then [] else ["rule.closeEventInHours: min value is 0"]
          | some _ => ["rule.closeEventInHours: must be of integer type"])
  | _ => ["rule: must be of dict type"]

/-- Validate the `alarms` mapping: every key is a 5-character code and
every value a valid rule. -/
def validateAlarms (j : Json) : List String :=
  match j with
  | .obj fields =>
      fields.flatMap (fun kv =>
        (if kv.1.length = 5 then [] else ["alarms: code must have length 5: " ++ kv.1])
        ++ validateRule kv.2)
  | _ => ["alarms: must be of dict type"]

/-- Validate a whole configuration document against
`YAML_CONFIG_FILE_SCHEMA`; the empty list means the document is valid. -/
def validateConfig (j : Json) : List String :=
  match j with
  | .obj fields =>
      (fields.filterMap (fun kv =>
        if kv.1 = "login" ∨ kv.1 = "proxy" ∨ kv.1 = "alarms" then none
        else some ("config: unknown field " ++ kv.1)))
      ++ (match objGet fields "login" with
          | none => []
          | some l => validateLogin l)
      ++ (match objGet fields "proxy" with
          | none => []
          | some p => validateProxy p)
      ++ (match objGet fields "alarms" with
          | none => ["config.alarms: required field"]
          | some a => validateAlarms a)
  | _ => ["config: must be of dict type"]

/-- The environment variables the program reads; `organizationId` models
a present `ORGANIZATION_ID` already converted by `int(...)`. -/
structure EnvVars where
  organizationId : Option Int
  apiToken : Option String

/-- Update (or append) a field of a JSON object's field list — Python
dict assignment `d[key] = v`. -/
def objSet (fields : List (String × Json)) (key : String) (v : Json) : List (String × Json) :=
  match fields with
  | [] => [(key, v)]
  | (k, w) :: rest => if k = key then (k, v) :: rest else (k, w) :: objSet rest key v

/-- Embedding of `read_config_file` (after the YAML parse): validate against the
schema, then merge each credential from exactly one of the configuration
file and the environment, rejecting conflict and absence.  Involves no
remote interaction.  The `login`-is-not-a-dict fallthrough models the
`TypeError` a non-dict would raise at the membership test (unreachable
for validated input). -/
def read_config_file (raw : Json) (env : EnvVars) : Except GAError Json :=
  match validateConfig raw with
  | _ :: _ => .error (.schemaError (validateConfig raw))
  | [] =>
    match raw with
    | .obj cfgFields0 =>
        let cfgFields :=
          if (objGet cfgFields0 "login").isSome then cfgFields0
          else objSet cfgFields0 "login" (.obj [])
        match objGet cfgFields "login" with
        | some (.obj loginFields) =>
            match
              (match objGet loginFields "organization-id" with
               | none =>
                   match env.organizationId with
                   | none => Except.error (GAError.environmentError
                       ("The Groupalarm organization id either needs to be provided in the "
                        ++ "environment variable ORGANIZATION_ID or in the YAML configuration file"))
                   | some v => Except.ok (objSet loginFields "organization-id" (Json.num v))
               | some _ =>
                   if env.organizationId.isSome then
                     Except.error (GAError.environmentError
                       ("The Groupalarm organization id is both provided in the environment "
                        ++ "variable ORGANIZATION_ID as well as in the YAML configuration file"))
                   else Except.ok loginFields) with
            | .error e => .error e
            | .ok loginFields1 =>
                match
                  (match objGet loginFields1 "api-token" with
                   | none =>
                       match env.apiToken with
                       | none => Except.error (GAError.environmentError
                           ("The Groupalarm API token either needs to be provided in the "
                            ++ "environment variable API-TOKEN or in the YAML configuration file"))
                       | some t => Except.ok (objSet loginFields1 "api-token" (Json.str t))
                   | some _ =>
                       if env.apiToken.isSome then
                         Except.error (GAError.environmentError
                           ("The Groupalarm API token is both provided in the environment "
                            ++ "variable API_TOKEN as well as in the YAML configuration file"))
                       else Except.ok loginFields1) with
                | .error e => .error e
                | .ok loginFields2 => .ok (.obj (objSet cfgFields "login" (.obj loginFields2)))
        | some _ => .error (.typeError "argument is not iterable")
        | none => .error (.keyError "login")
    | _ => .error (.typeError "config is not a dict")

/-!
## Statement helpers and concrete fixtures
-/

/-- Python truthiness of the `message` slot (`if message:`). -/
def msgTruthy : Option String → Bool
  | some m => m != ""
  | none => false

/-- Python truthiness of the `alarm_template_id` slot
(`elif alarm_template_id:`). -/
def tidTruthy : Option Json → Bool
  | some t => t.truthy
  | none => false

/-- Whether an `Except` result is a success. -/
def exceptIsOk : Except GAError Json → Bool
  | .ok _ => true
  | .error _ => false

/-- The request-body field list `send_alarm` assembles once resources,
message and close duration are in hand (used to state its result). -/
def assembleFields (config : Config) (now : Int) (alarm_time_point alarm_code alarm_type : String)
    (res : Json) (rule : AlarmRule) (tid : Option Json) (msg : Option String) :
    List (String × Json) :=
  let base : List (String × Json) :=
    [("alarmResources", res),
     ("organizationID", Json.num config.login.organizationId),
     ("startTime", Json.str (to_isoformat_string now)),
     ("eventName", Json.str ("[Funkmelderalarm] Schleife " ++ alarm_code ++ " "
        ++ alarm_time_point ++ " (" ++ alarm_type ++ ")"))]
  let withEnd :=
    match rule.closeEventInHours with
    | some h =>
        if h * 3600 ≠ 0 then
          base ++ [("scheduledEndTime", Json.str (to_isoformat_string (now + h * 3600)))]
        else base
    | none => base
  match msg with
  | some m =>
      if m ≠ "" then withEnd ++ [("message", Json.str m)]
      else appendTemplate withEnd tid
  | none => appendTemplate withEnd tid

/-- The `login` field of a credential of the (raw or returned)
configuration document. -/
def loginField (raw : Json) (key : String) : Option Json :=
  match raw.get "login" with
  | some l => l.get key
  | none => none

/-- A 200 response without a JSON body: a successful dispatch answer. -/
def okResponse : Response :=
  ⟨200, none, Json.null⟩

/-- A network whose every endpoint answers with `okResponse`. -/
def netBase : Network :=
  ⟨okResponse, okResponse, okResponse, okResponse, okResponse, okResponse, okResponse⟩

/-- A network whose dispatch endpoints answer `r`. -/
def netWithAlarm (r : Response) : Network :=
  ⟨okResponse, okResponse, okResponse, okResponse, okResponse, r, r⟩

/-- A network whose `labels` endpoint serves the given catalog. -/
def netWithLabels (catalog : List (String × Int)) : Network :=
  ⟨okResponse, catalogResponse catalog, okResponse, okResponse, okResponse, okResponse, okResponse⟩

/-- A network whose `users` endpoint serves the given catalog. -/
def netWithUsers (catalog : List (String × Int)) : Network :=
  ⟨okResponse, okResponse, catalogResponse catalog, okResponse, okResponse, okResponse, okResponse⟩

/-- A network whose `alarms/templates` endpoint serves the given
catalog. -/
def netWithTemplates (catalog : List (String × Int)) : Network :=
  ⟨okResponse, okResponse, okResponse, okResponse, catalogResponse catalog, okResponse, okResponse⟩

/-- A resources object selecting all users. -/
def allUsersRes : ResourcesConfig :=
  ⟨some true, none, none, none, none⟩

/-- A resources object selecting a set of users by name. -/
def usersOnlyRes (names : List String) : ResourcesConfig :=
  ⟨none, none, none, some names, none⟩

/-- A resources object selecting labelled amounts. -/
def labelsOnlyRes (entries : List (String × Int)) : ResourcesConfig :=
  ⟨none, some entries, none, none, none⟩

/-- Build an alarm rule. -/
def mkRule (res : ResourcesConfig) (msg tmpl : Option String) (close : Option Int) : AlarmRule :=
  ⟨res, msg, tmpl, close⟩

/-- A configuration with fixed credentials and the given alarms. -/
def mkConfig (alarms : List (String × AlarmRule)) : Config :=
  ⟨⟨123, "token"⟩, none, alarms⟩

/-- Fixture: a rule with `closeEventInHours: 0` and a literal message. -/
def cfgClose0 : Config :=
  mkConfig [("12345", mkRule allUsersRes (some "Alarm") none (some 0))]

/-- Fixture: a rule whose literal message is the empty string. -/
def cfgEmptyMsg : Config :=
  mkConfig [("12345", mkRule allUsersRes (some "") none none)]

/-- Fixture: an all-users rule with a plain literal message. -/
def cfgPlain : Config :=
  mkConfig [("12345", mkRule allUsersRes (some "Alarm") none none)]

/-- Fixture: a labels rule with one labelled amount. -/
def cfgLabels : Config :=
  mkConfig [("12345", mkRule (labelsOnlyRes [("L1", 2)]) (some "Alarm") none none)]

/-- Fixture: a rule with `closeEventInHours: 2` and a literal message. -/
def cfgClose2 : Config :=
  mkConfig [("12345", mkRule allUsersRes (some "Alarm") none (some 2))]

/-- Fixture: a rule with a message template instead of a literal
message. -/
def cfgTmpl : Config :=
  mkConfig [("12345", mkRule allUsersRes none (some "T1") none)]

/-- Fixture: the `users` resource variant, as the untyped configuration
document the Schema Validator sees. -/
def usersConfigJson : Json :=
  Json.obj [("alarms", Json.obj [("12345", Json.obj
    [("resources", Json.obj [("users", Json.arr [Json.str "John Doe"])]),
     ("message", Json.str "Alarm")])])]

/-- Fixture: the same `users` rule in resolved form. -/
def usersConfig : Config :=
  mkConfig [("12345", mkRule (usersOnlyRes ["John Doe"]) (some "Alarm") none none)]

/-!
## Helper lemmas
-/

theorem objGet_append (l1 l2 : List (String × Json)) (k : String) :
    objGet (l1 ++ l2) k = ((objGet l1 k).or (objGet l2 k)) := by
  induction l1 with
  | nil => simp [objGet]
  | cons kv rest ih =>
      obtain ⟨k0, v⟩ := kv
      by_cases h : k0 = k
      · simp [objGet, h]
      · simp [objGet, h, ih]

theorem objGet_appendTemplate_ne (fields : List (String × Json)) (tid : Option Json)
    (k : String) (h : k ≠ "alarmTemplateID") :
    objGet (appendTemplate fields tid) k = objGet fields k := by
  cases tid with
  | none => rfl
  | some t =>
      by_cases ht : t.truthy
      · simp [appendTemplate, ht, objGet_append, objGet, Ne.symm h, Option.or]
        cases objGet fields k <;> rfl
      · simp [appendTemplate, ht]

theorem objGet_objSet_self (fields : List (String × Json)) (k : String) (v : Json) :
    objGet (objSet fields k v) k = some v := by
  induction fields with
  | nil => simp [objSet, objGet]
  | cons kv rest ih =>
      obtain ⟨k0, w⟩ := kv
      by_cases h : k0 = k
      · simp [objSet, h, objGet]
      · simp [objSet, h, objGet, ih]

theorem objGet_objSet_ne (fields : List (String × Json)) (k : String) (v : Json)
    (k' : String) (h : k ≠ k') :
    objGet (objSet fields k v) k' = objGet fields k' := by
  induction fields with
  | nil => simp [objSet, objGet, h]
  | cons kv rest ih =>
      obtain ⟨k0, w⟩ := kv
      by_cases h0 : k0 = k
      · subst h0
        simp [objSet, objGet, h]
      · simp [objSet, h0, objGet, ih]

theorem dictLookup_eq_none_iff (m : List (String × Json)) (k : String) :
    dictLookup m k = none ↔ k ∉ m.map Prod.fst := by
  induction m with
  | nil => simp [dictLookup]
  | cons kv rest ih =>
      obtain ⟨k0, v⟩ := kv
      cases h : dictLookup rest k with
      | some v2 =>
          have hk : k ∈ rest.map Prod.fst := by
            by_contra hc
            have hn := ih.mpr hc
            rw [h] at hn
            simp at hn
          simp [dictLookup, h, hk]
      | none =>
          have hk : k ∉ rest.map Prod.fst := ih.mp h
          by_cases h0 : k0 = k
          · simp [dictLookup, h, h0]
          · simp [dictLookup, h, h0, hk, Ne.symm h0]

theorem dictLookup_isSome_iff (m : List (String × Json)) (k : String) :
    (dictLookup m k).isSome = true ↔ k ∈ m.map Prod.fst := by
  have h := dictLookup_eq_none_iff m k
  cases hd : dictLookup m k <;> simp_all

theorem dictLookup_eq_objGet_of_nodup (m : List (String × Json)) (k : String)
    (h : (m.map Prod.fst).Nodup) :
    dictLookup m k = objGet m k := by
  induction m with
  | nil => rfl
  | cons kv rest ih =>
      obtain ⟨k0, v⟩ := kv
      simp only [List.map_cons, List.nodup_cons] at h
      obtain ⟨h0, hrest⟩ := h
      by_cases he : k0 = k
      · subst he
        have : dictLookup rest k0 = none := (dictLookup_eq_none_iff rest k0).mpr h0
        simp [dictLookup, this, objGet]
      · cases hd : dictLookup rest k with
        | some v2 => simp [dictLookup, hd, objGet, he, ← ih hrest]
        | none => simp [dictLookup, hd, objGet, he, ← ih hrest]

theorem entriesToMap_catalogJson (catalog : List (String × Int)) :
    entriesToMap (catalog.map (fun e => Json.obj [("name", Json.str e.1), ("id", Json.num e.2)]))
      = .ok (catalog.map (fun e => (e.1, Json.num e.2))) := by
  induction catalog with
  | nil => rfl
  | cons e rest ih =>
      simp only [List.map_cons, entriesToMap, ih]
      rfl

theorem length_filterMap_eq_length_iff {α β : Type} (f : α → Option β) (l : List α) :
    (l.filterMap f).length = l.length ↔ ∀ a ∈ l, (f a).isSome := by
  induction l with
  | nil => simp
  | cons a l ih =>
      cases h : f a with
      | none =>
          have hle := List.length_filterMap_le f l
          simp only [List.filterMap_cons, h, List.length_cons]
          constructor
          · intro heq
            omega
          · intro hall
            have := hall a (by simp)
            rw [h] at this
            simp at this
      | some b =>
          rw [List.filterMap_cons, h]
          simp only [List.length_cons, Nat.add_right_cancel_iff, ih, List.forall_mem_cons]
          simp [h]

theorem map_fst_catalogMap (catalog : List (String × Int)) :
    (catalog.map (fun e => (e.1, Json.num e.2))).map Prod.fst = catalog.map Prod.fst := by
  simp [List.map_map]

theorem objGet_catalogMap_eq_lookup (catalog : List (String × Int)) (k : String) :
    objGet (catalog.map (fun e => (e.1, Json.num e.2))) k = (catalog.lookup k).map Json.num := by
  induction catalog with
  | nil => rfl
  | cons e rest ih =>
      obtain ⟨k0, i⟩ := e
      by_cases h : k0 = k
      · subst h
        simp [objGet, List.lookup]
      · have hbe : (k == k0) = false := beq_eq_false_iff_ne.mpr (Ne.symm h)
        simp [objGet, h, List.lookup, hbe, ih]

theorem catalogJson_any_str_false (catalog : List (String × Int)) (s : String) :
    (catalog.map (fun e => Json.obj [("name", Json.str e.1), ("id", Json.num e.2)])).any
      (fun j => match j with | Json.str t => t = s | _ => false) = false := by
  induction catalog with
  | nil => rfl
  | cons e rest ih => simpa using ih

theorem lookup_isSome_of_mem_keys {β : Type} (catalog : List (String × β)) (n : String)
    (h : n ∈ catalog.map Prod.fst) : ∃ id, catalog.lookup n = some id := by
  induction catalog with
  | nil => simp at h
  | cons e rest ih =>
      obtain ⟨k, v⟩ := e
      rw [List.map_cons] at h
      by_cases he : n = k
      · subst he
        exact ⟨v, by simp [List.lookup]⟩
      · have hr : n ∈ rest.map Prod.fst := by
          rcases List.mem_cons.mp h with h1 | h1
          · exact absurd h1 he
          · exact h1
        obtain ⟨id, hid⟩ := ih hr
        have hbe : (n == k) = false := beq_eq_false_iff_ne.mpr he
        exact ⟨id, by simp [List.lookup, hbe, hid]⟩

theorem forall2_filterMap {α β : Type} (R : α → β → Prop) (f : α → Option β) (l : List α)
    (h : ∀ a ∈ l, ∃ b, f a = some b ∧ R a b) :
    List.Forall₂ R l (l.filterMap f) := by
  induction l with
  | nil => simp
  | cons a l ih =>
      obtain ⟨b, hb, hr⟩ := h a (by simp)
      rw [List.filterMap_cons, hb]
      exact List.Forall₂.cons hr (ih (fun x hx => h x (by simp [hx])))

theorem get_entity_ids_catalog (names : List String) (orgId : Int) (sub : String)
    (catalog : List (String × Int)) :
    get_entity_ids_from_endpoint names orgId sub (catalogResponse catalog)
      = (if (names.filterMap
              (fun n => dictLookup (catalog.map (fun e => (e.1, Json.num e.2))) n)).length
            ≠ names.length then
          (.error (.missingEntities sub orgId
            ((names.filter
              (fun n => (dictLookup (catalog.map (fun e => (e.1, Json.num e.2))) n).isNone)).dedup)),
           [])
        else
          (.ok (names.filterMap
            (fun n => dictLookup (catalog.map (fun e => (e.1, Json.num e.2))) n)), [])) := by
  have hct : isJsonContentType (some "application/json") = true := by decide
  simp only [get_entity_ids_from_endpoint, catalogResponse, get_json_response, hct,
    catalogJson, if_true, catalogJson_any_str_false, Bool.false_eq_true, false_and, if_false,
    raise_for_status, pyIter, entriesToMap_catalogJson]
  norm_num

/-!
## Claim theorems
-/

/-- C9: for every configuration, network and alert code that is not a key
of the alarms mapping, the Resource Selector, the Message Selector and the
close-duration lookup each fail with the `ValueError` naming the alarm
code, with no diagnostic output.  The result is the same for every
`net`, i.e. the failure precedes any network call. -/
theorem alarm_code_unconfigured_fails (config : Config) (net : Network) (code : String)
    (h : config.alarms.lookup code = none) :
    get_alarm_resources code config net
        = (.error (.valueError ("No alarm configuration for the alarm code " ++ code)), [])
      ∧ get_alarm_message code config net
        = (.error (.valueError ("No alarm configuration for the alarm code " ++ code)), [])
      ∧ get_close_event_time_period code config
        = .error (.valueError ("No alarm configuration for the alarm code " ++ code)) := by
  refine ⟨?_, ?_, ?_⟩ <;>
    simp [get_alarm_resources, get_alarm_message, get_close_event_time_period, h]

/-- Witness for C9 at a concrete unconfigured code. -/
theorem alarm_code_unconfigured_fails_witness :
    get_alarm_resources "99999" (mkConfig []) netBase
        = (.error (.valueError ("No alarm configuration for the alarm code " ++ "99999")), [])
      ∧ get_alarm_message "99999" (mkConfig []) netBase
        = (.error (.valueError ("No alarm configuration for the alarm code " ++ "99999")), [])
      ∧ get_close_event_time_period "99999" (mkConfig [])
        = .error (.valueError ("No alarm configuration for the alarm code " ++ "99999")) :=
  alarm_code_unconfigured_fails (mkConfig []) netBase "99999" rfl

/-- C10: a 2xx lookup response without a JSON Content-Type makes
`_get_json_response` yield `None`, and resolution then dies iterating over
`None` with a `TypeError` — not with the `RemoteError`/`ResolutionError`
taxonomy (the equality to a `typeError` result makes it distinct from
`httpError` and `missingEntities`).  Conversely, over a response whose
body is a JSON array of `{name, id}` objects, resolution never raises a
`TypeError`. -/
theorem lookup_nonjson_response_typeerror :
    (∀ (names : List String) (orgId : Int) (sub : String) (r : Response),
        200 ≤ r.status → r.status < 300 → isJsonContentType r.contentType = false →
        get_entity_ids_from_endpoint names orgId sub r
          = (.error (.typeError "NoneType object is not iterable"), []))
      ∧ (∀ (names : List String) (orgId : Int) (sub : String) (catalog : List (String × Int))
          (msg : String),
          (get_entity_ids_from_endpoint names orgId sub (catalogResponse catalog)).1
            ≠ .error (.typeError msg)) := by
  constructor
  · intro names orgId sub r h1 h2 hct
    have hrfs : raise_for_status r = .ok () := by
      unfold raise_for_status
      rw [if_neg (by omega)]
    simp [get_entity_ids_from_endpoint, get_json_response, hct, hrfs]
  · intro names orgId sub catalog msg
    rw [get_entity_ids_catalog]
    split <;> simp

/-- Witness for C10: a concrete 204 response without Content-Type, and a
concrete well-formed catalog. -/
theorem lookup_nonjson_response_typeerror_witness :
    get_entity_ids_from_endpoint ["a"] 7 "units" ⟨204, none, Json.null⟩
        = (.error (.typeError "NoneType object is not iterable"), [])
      ∧ (get_entity_ids_from_endpoint ["a"] 7 "units" (catalogResponse [("a", 1)])).1
          ≠ .error (.typeError "x") :=
  ⟨lookup_nonjson_response_typeerror.1 ["a"] 7 "units" ⟨204, none, Json.null⟩
      (by decide) (by decide) rfl,
   lookup_nonjson_response_typeerror.2 ["a"] 7 "units" [("a", 1)] "x"⟩

/-- C4: whenever some requested name is absent from the catalog,
resolution fails with the missing-name list whose underlying set is
exactly requested-minus-catalog — every missing name reported, no found
name reported, order-independent. -/
theorem resolution_missing_names_exact (names : List String) (orgId : Int) (sub : String)
    (catalog : List (String × Int))
    (h : ∃ n ∈ names, n ∉ catalog.map Prod.fst) :
    ∃ missing, get_entity_ids_from_endpoint names orgId sub (catalogResponse catalog)
        = (.error (.missingEntities sub orgId missing), [])
      ∧ missing.toFinset = names.toFinset \ (catalog.map Prod.fst).toFinset := by
  rw [get_entity_ids_catalog]
  have hkeys : (catalog.map (fun e => (e.1, Json.num e.2))).map Prod.fst
      = catalog.map Prod.fst := map_fst_catalogMap catalog
  have hlen : (names.filterMap
      (fun n => dictLookup (catalog.map (fun e => (e.1, Json.num e.2))) n)).length
      ≠ names.length := by
    intro heq
    obtain ⟨n, hn, hout⟩ := h
    have hs := (length_filterMap_eq_length_iff _ _).mp heq n hn
    rw [dictLookup_isSome_iff, hkeys] at hs
    exact hout hs
  rw [if_pos hlen]
  refine ⟨_, rfl, ?_⟩
  ext x
  constructor
  · intro hx
    rw [List.mem_toFinset, List.mem_dedup, List.mem_filter] at hx
    obtain ⟨hx1, hx2⟩ := hx
    rw [Finset.mem_sdiff, List.mem_toFinset, List.mem_toFinset]
    refine ⟨hx1, ?_⟩
    rw [Option.isNone_iff_eq_none, dictLookup_eq_none_iff, hkeys] at hx2
    exact hx2
  · intro hx
    rw [Finset.mem_sdiff, List.mem_toFinset, List.mem_toFinset] at hx
    obtain ⟨hx1, hx2⟩ := hx
    rw [List.mem_toFinset, List.mem_dedup, List.mem_filter]
    refine ⟨hx1, ?_⟩
    rw [Option.isNone_iff_eq_none, dictLookup_eq_none_iff, hkeys]
    exact hx2

/-- Witness for C4: requesting a present and an absent name. -/
theorem resolution_missing_names_exact_witness :
    ∃ missing, get_entity_ids_from_endpoint ["a", "b"] 7 "units" (catalogResponse [("b", 2)])
        = (.error (.missingEntities "units" 7 missing), [])
      ∧ missing.toFinset
          = (["a", "b"] : List String).toFinset
              \ (([("b", 2)] : List (String × Int)).map Prod.fst).toFinset :=
  resolution_missing_names_exact ["a", "b"] 7 "units" [("b", 2)] ⟨"a", by decide, by decide⟩

theorem resolver_subset_ok (names : List String) (orgId : Int) (sub : String)
    (catalog : List (String × Int))
    (hcat : (catalog.map Prod.fst).Nodup)
    (hsub : ∀ n ∈ names, n ∈ catalog.map Prod.fst) :
    ∃ ids, get_entity_ids_from_endpoint names orgId sub (catalogResponse catalog)
        = (.ok ids, [])
      ∧ List.Forall₂ (fun n j => ∃ id, catalog.lookup n = some id ∧ j = Json.num id)
          names ids := by
  rw [get_entity_ids_catalog]
  have hkeys : (catalog.map (fun e => (e.1, Json.num e.2))).map Prod.fst
      = catalog.map Prod.fst := map_fst_catalogMap catalog
  have hlook : ∀ n ∈ names, ∃ id, catalog.lookup n = some id
      ∧ dictLookup (catalog.map (fun e => (e.1, Json.num e.2))) n = some (Json.num id) := by
    intro n hn
    have hmem : n ∈ (catalog.map (fun e => (e.1, Json.num e.2))).map Prod.fst := by
      rw [hkeys]; exact hsub n hn
    have hnodup : ((catalog.map (fun e => (e.1, Json.num e.2))).map Prod.fst).Nodup := by
      rw [hkeys]; exact hcat
    rw [dictLookup_eq_objGet_of_nodup _ _ hnodup, objGet_catalogMap_eq_lookup]
    obtain ⟨id, hl⟩ := lookup_isSome_of_mem_keys catalog n (hsub n hn)
    exact ⟨id, hl, by rw [hl]; rfl⟩
  have hlen : (names.filterMap
      (fun n => dictLookup (catalog.map (fun e => (e.1, Json.num e.2))) n)).length
      = names.length := by
    rw [length_filterMap_eq_length_iff]
    intro n hn
    obtain ⟨id, _, hd⟩ := hlook n hn
    rw [hd]
    rfl
  rw [if_neg (by omega)]
  refine ⟨_, rfl, ?_⟩
  refine forall2_filterMap _ _ _ (fun n hn => ?_)
  obtain ⟨id, hl, hd⟩ := hlook n hn
  exact ⟨Json.num id, hd, id, hl, rfl⟩

/-- C5: when the requested names are distinct and all appear in a
duplicate-free catalog, resolution succeeds and returns exactly the
catalog id of each requested name, in input order (stated positionally
via `Forall₂`). -/
theorem resolution_subset_ids_in_order (names : List String) (orgId : Int) (sub : String)
    (catalog : List (String × Int)) (hnd : names.Nodup)
    (hcat : (catalog.map Prod.fst).Nodup)
    (hsub : ∀ n ∈ names, n ∈ catalog.map Prod.fst) :
    ∃ ids, get_entity_ids_from_endpoint names orgId sub (catalogResponse catalog)
        = (.ok ids, [])
      ∧ List.Forall₂ (fun n j => ∃ id, catalog.lookup n = some id ∧ j = Json.num id)
          names ids :=
  resolver_subset_ok names orgId sub catalog hcat hsub

/-- Witness for C5 at a concrete two-name request. -/
theorem resolution_subset_ids_in_order_witness :
    ∃ ids, get_entity_ids_from_endpoint ["a", "b"] 7 "units"
          (catalogResponse [("b", 2), ("a", 1)])
        = (.ok ids, [])
      ∧ List.Forall₂
          (fun n j => ∃ id, ([("b", 2), ("a", 1)] : List (String × Int)).lookup n = some id
            ∧ j = Json.num id) ["a", "b"] ids :=
  resolution_subset_ids_in_order ["a", "b"] 7 "units" [("b", 2), ("a", 1)]
    (by decide) (by decide) (by decide)

theorem forall2_zip_map {α β γ δ : Type} (R : δ → β → Prop) (S : α → γ → Prop)
    (f : α → δ) (g : α × β → γ)
    (hg : ∀ a b, R (f a) b → S a (g (a, b))) :
    ∀ (l : List α) (ids : List β),
      List.Forall₂ R (l.map f) ids → List.Forall₂ S l ((l.zip ids).map g) := by
  intro l
  induction l with
  | nil =>
      intro ids h
      rw [List.map_nil] at h
      cases h
      simp
  | cons a l ih =>
      intro ids h
      rw [List.map_cons] at h
      cases h with
      | cons hab htail =>
          simp only [List.zip_cons_cons, List.map_cons]
          exact List.Forall₂.cons (hg a _ hab) (ih _ htail)

/-- C6: for a labels spec whose names all resolve against a
duplicate-free catalog, the Resource Selector yields `{labels: [...]}`
preserving input order and pairing each input amount with the id resolved
for the label name at the same position. -/
theorem labels_order_and_pairing (entries : List (String × Int)) (catalog : List (String × Int))
    (code : String) (config : Config) (net : Network) (rule : AlarmRule)
    (hrule : config.alarms.lookup code = some rule)
    (hres : rule.resources = labelsOnlyRes entries)
    (hne : entries ≠ [])
    (hcat : (catalog.map Prod.fst).Nodup)
    (hsub : ∀ p ∈ entries, p.1 ∈ catalog.map Prod.fst)
    (hnet : net.labels = catalogResponse catalog) :
    ∃ arr, get_alarm_resources code config net
        = (.ok (Json.obj [("labels", Json.arr arr)]), [])
      ∧ List.Forall₂
          (fun (p : String × Int) j => ∃ id, catalog.lookup p.1 = some id
            ∧ j = Json.obj [("amount", Json.num p.2), ("labelID", Json.num id)])
          entries arr := by
  have hsub' : ∀ n ∈ entries.map Prod.fst, n ∈ catalog.map Prod.fst := by
    intro n hn
    rw [List.mem_map] at hn
    obtain ⟨p, hp, rfl⟩ := hn
    exact hsub p hp
  obtain ⟨ids, hids, hfa⟩ :=
    resolver_subset_ok (entries.map (fun e => e.1)) config.login.organizationId "labels"
      catalog hcat (by simpa using hsub')
  simp only [get_alarm_resources, hrule, hres, labelsOnlyRes, get_ids_for_labels, hnet, hids]
  refine ⟨_, rfl, ?_⟩
  refine forall2_zip_map _ _ _ _ ?_ entries ids hfa
  intro p j hj
  obtain ⟨id, hl, rfl⟩ := hj
  exact ⟨id, hl, rfl⟩

/-- Witness for C6 at a concrete one-label spec. -/
theorem labels_order_and_pairing_witness :
    ∃ arr, get_alarm_resources "12345" cfgLabels (netWithLabels [("L1", 9)])
        = (.ok (Json.obj [("labels", Json.arr arr)]), [])
      ∧ List.Forall₂
          (fun (p : String × Int) j => ∃ id, ([("L1", 9)] : List (String × Int)).lookup p.1
              = some id
            ∧ j = Json.obj [("amount", Json.num p.2), ("labelID", Json.num id)])
          [("L1", 2)] arr :=
  labels_order_and_pairing [("L1", 2)] [("L1", 9)] "12345" cfgLabels
    (netWithLabels [("L1", 9)]) (mkRule (labelsOnlyRes [("L1", 2)]) (some "Alarm") none none)
    rfl rfl (by decide) (by decide) (by decide) rfl

theorem send_alarm_ok_eq (config : Config) (net : Network) (now : Int)
    (tp code ty : String) (emit : Bool) (rule : AlarmRule) (res : Json)
    (tid : Option Json) (msg : Option String) (jr : Option Json) (l1 l2 l3 : List String)
    (hrule : config.alarms.lookup code = some rule)
    (hres : get_alarm_resources code config net = (.ok res, l1))
    (hmsg : get_alarm_message code config net = (.ok (tid, msg), l2))
    (hjson : get_json_response (if emit then net.alarm else net.alarmPreview) = (.ok jr, l3))
    (hstat : raise_for_status (if emit then net.alarm else net.alarmPreview) = .ok ()) :
    send_alarm config net now tp code ty emit
      = (.ok (Json.obj (assembleFields config now tp code ty res rule tid msg)),
         l1 ++ l2 ++ l3) := by
  simp only [send_alarm, hres, hmsg, get_close_event_time_period, hrule, hjson, hstat,
    assembleFields]
  cases rule.closeEventInHours <;> rfl

theorem objGet_assembleFields_startTime (config : Config) (now : Int)
    (tp code ty : String) (res : Json) (rule : AlarmRule)
    (tid : Option Json) (msg : Option String) :
    objGet (assembleFields config now tp code ty res rule tid msg) "startTime"
      = some (Json.str (to_isoformat_string now)) := by
  cases hclose : rule.closeEventInHours <;> cases msg <;> cases tid <;>
    simp only [assembleFields, hclose, appendTemplate] <;>
    repeat' split
  all_goals simp_all [objGet_append, objGet]

theorem objGet_assembleFields_scheduledEnd (config : Config) (now : Int)
    (tp code ty : String) (res : Json) (rule : AlarmRule)
    (tid : Option Json) (msg : Option String) :
    objGet (assembleFields config now tp code ty res rule tid msg) "scheduledEndTime"
      = (match rule.closeEventInHours with
         | some h => if h * 3600 ≠ 0
              then some (Json.str (to_isoformat_string (now + h * 3600))) else none
         | none => none) := by
  cases hclose : rule.closeEventInHours <;> cases msg <;> cases tid <;>
    simp only [assembleFields, hclose, appendTemplate] <;>
    repeat' split
  all_goals simp_all [objGet_append, objGet]

theorem hasKey_assembleFields_message (config : Config) (now : Int)
    (tp code ty : String) (res : Json) (rule : AlarmRule)
    (tid : Option Json) (msg : Option String) :
    (objGet (assembleFields config now tp code ty res rule tid msg) "message").isSome
      = msgTruthy msg := by
  cases hclose : rule.closeEventInHours <;> cases msg <;> cases tid <;>
    simp only [assembleFields, hclose, appendTemplate] <;>
    repeat' split
  all_goals simp_all [objGet_append, objGet, msgTruthy]

theorem hasKey_assembleFields_templateID (config : Config) (now : Int)
    (tp code ty : String) (res : Json) (rule : AlarmRule)
    (tid : Option Json) (msg : Option String) :
    (objGet (assembleFields config now tp code ty res rule tid msg) "alarmTemplateID").isSome
      = (!(msgTruthy msg) && tidTruthy tid) := by
  cases hclose : rule.closeEventInHours <;> cases msg <;> cases tid <;>
    simp only [assembleFields, hclose, appendTemplate] <;>
    repeat' split
  all_goals simp_all [objGet_append, objGet, msgTruthy, tidTruthy]

/-- C1 (amended): in a run that reaches assembly, `startTime` is always
present and renders `now`; `scheduledEndTime` is present iff the rule
configures a **positive** `closeEventInHours` (a configured `0` yields a
falsy `timedelta` and the field is omitted), and when present it equals
`startTime` plus that many hours, both rendered by `to_isoformat_string`
(ISO-8601 with a `Z` suffix). -/
theorem scheduled_end_iff_positive_close (config : Config) (net : Network) (now : Int)
    (tp code ty : String) (emit : Bool) (rule : AlarmRule) (res : Json)
    (tid : Option Json) (msg : Option String) (jr : Option Json) (l1 l2 l3 : List String)
    (hrule : config.alarms.lookup code = some rule)
    (hres : get_alarm_resources code config net = (.ok res, l1))
    (hmsg : get_alarm_message code config net = (.ok (tid, msg), l2))
    (hjson : get_json_response (if emit then net.alarm else net.alarmPreview) = (.ok jr, l3))
    (hstat : raise_for_status (if emit then net.alarm else net.alarmPreview) = .ok ())
    (hvalid : ∀ h, rule.closeEventInHours = some h → 0 ≤ h) :
    ∃ body logs, send_alarm config net now tp code ty emit = (.ok body, logs)
      ∧ Json.get body "startTime" = some (.str (to_isoformat_string now))
      ∧ (Json.hasKey body "scheduledEndTime" = true
          ↔ ∃ h, rule.closeEventInHours = some h ∧ 0 < h)
      ∧ (∀ h, rule.closeEventInHours = some h → 0 < h →
          Json.get body "scheduledEndTime"
            = some (.str (to_isoformat_string (now + h * 3600)))) := by
  refine ⟨_, _, send_alarm_ok_eq config net now tp code ty emit rule res tid msg jr l1 l2 l3
    hrule hres hmsg hjson hstat, ?_, ?_, ?_⟩
  · simp [Json.get, objGet_assembleFields_startTime]
  · simp only [Json.hasKey, Json.get]
    rw [objGet_assembleFields_scheduledEnd]
    cases hclose : rule.closeEventInHours with
    | none => simp
    | some h =>
        have h0 := hvalid h hclose
        by_cases hz : h * 3600 ≠ 0
        · have hne0 : h ≠ 0 := by
            intro hh
            rw [hh] at hz
            exact hz (by norm_num)
          simp only [if_pos hz, Option.isSome_some, true_iff]
          exact ⟨h, rfl, by omega⟩
        · have hh : h = 0 := by
            rcases mul_eq_zero.mp (not_ne_iff.mp hz) with h1 | h1
            · exact h1
            · norm_num at h1
          subst hh
          simp only [if_neg hz, Option.isSome_none, Bool.false_eq_true, false_iff]
          rintro ⟨h2, he, hp⟩
          injection he with he
          omega
  · intro h hclose hpos
    simp only [Json.get]
    rw [objGet_assembleFields_scheduledEnd, hclose]
    have hz : h * 3600 ≠ 0 := (Int.mul_pos hpos (by norm_num)).ne'
    simp [hz]

/-- Counterexample to C1 as stated: with `closeEventInHours: 0` configured
the assembled request omits `scheduledEndTime` (the zero `timedelta` is
falsy). -/
theorem scheduled_end_zero_close_cex :
    Except.map (fun b => Json.hasKey b "scheduledEndTime")
        (send_alarm cfgClose0 netBase 0 "05.12.2021 19:51:52" "12345" "Probealarm" true).1
      = .ok false
    ∧ cfgClose0.alarms.lookup "12345"
        = some (mkRule allUsersRes (some "Alarm") none (some 0)) := by
  exact ⟨rfl, rfl⟩

/-- Witness for the amended C1 at a rule with `closeEventInHours: 2`. -/
theorem scheduled_end_iff_positive_close_witness :
    ∃ body logs,
      send_alarm cfgClose2 netBase 1638733912 "05.12.2021 19:51:52" "12345" "Probealarm" true
        = (.ok body, logs)
      ∧ Json.get body "startTime" = some (.str (to_isoformat_string 1638733912))
      ∧ (Json.hasKey body "scheduledEndTime" = true
          ↔ ∃ h, (mkRule allUsersRes (some "Alarm") none (some 2)).closeEventInHours = some h
              ∧ 0 < h)
      ∧ (∀ h, (mkRule allUsersRes (some "Alarm") none (some 2)).closeEventInHours = some h
          → 0 < h →
          Json.get body "scheduledEndTime"
            = some (.str (to_isoformat_string (1638733912 + h * 3600)))) :=
  scheduled_end_iff_positive_close cfgClose2 netBase 1638733912 "05.12.2021 19:51:52" "12345"
    "Probealarm" true (mkRule allUsersRes (some "Alarm") none (some 2))
    (Json.obj [("allUsers", Json.bool true)]) none (some "Alarm") none [] [] []
    rfl rfl rfl rfl rfl (by intro h hh; injection hh with hh; omega)

/-- C2 (amended): in a run that reaches assembly, `message` is present iff
the rule's literal message is truthy (non-empty); `alarmTemplateID` is
present iff there is no truthy literal message and the resolved template
id is truthy (nonzero); the two keys are never both present — but both
are absent when the literal message is the empty string (Python falsy) or
the resolved template id is falsy. -/
theorem message_xor_template (config : Config) (net : Network) (now : Int)
    (tp code ty : String) (emit : Bool) (rule : AlarmRule) (res : Json)
    (tid : Option Json) (msg : Option String) (jr : Option Json) (l1 l2 l3 : List String)
    (hrule : config.alarms.lookup code = some rule)
    (hres : get_alarm_resources code config net = (.ok res, l1))
    (hmsg : get_alarm_message code config net = (.ok (tid, msg), l2))
    (hjson : get_json_response (if emit then net.alarm else net.alarmPreview) = (.ok jr, l3))
    (hstat : raise_for_status (if emit then net.alarm else net.alarmPreview) = .ok ()) :
    ∃ body logs, send_alarm config net now tp code ty emit = (.ok body, logs)
      ∧ Json.hasKey body "message" = msgTruthy rule.message
      ∧ Json.hasKey body "alarmTemplateID" = (!(msgTruthy rule.message) && tidTruthy tid)
      ∧ ¬(Json.hasKey body "message" = true ∧ Json.hasKey body "alarmTemplateID" = true) := by
  have hmr : msg = rule.message := by
    cases hm : rule.message with
    | some m =>
        simp only [get_alarm_message, hrule, hm] at hmsg
        rw [Prod.mk.injEq, Except.ok.injEq, Prod.mk.injEq] at hmsg
        exact hmsg.1.2.symm
    | none =>
        cases ht : rule.messageTemplate with
        | some tname =>
            cases hg : get_alarm_template_id tname config.login.organizationId net with
            | mk gr glogs =>
                cases gr with
                | error e =>
                    simp only [get_alarm_message, hrule, hm, ht, hg] at hmsg
                    simp at hmsg
                | ok t =>
                    simp only [get_alarm_message, hrule, hm, ht, hg] at hmsg
                    rw [Prod.mk.injEq, Except.ok.injEq, Prod.mk.injEq] at hmsg
                    exact hmsg.1.2.symm
        | none =>
            simp only [get_alarm_message, hrule, hm, ht] at hmsg
            simp at hmsg
  refine ⟨_, _, send_alarm_ok_eq config net now tp code ty emit rule res tid msg jr l1 l2 l3
    hrule hres hmsg hjson hstat, ?_, ?_, ?_⟩
  · rw [← hmr]
    simp [Json.hasKey, Json.get, hasKey_assembleFields_message]
  · rw [← hmr]
    simp [Json.hasKey, Json.get, hasKey_assembleFields_templateID]
  · rintro ⟨h1, h2⟩
    rw [show (Json.obj (assembleFields config now tp code ty res rule tid msg)).hasKey "message"
        = msgTruthy msg from by
          simp [Json.hasKey, Json.get, hasKey_assembleFields_message]] at h1
    rw [show (Json.obj (assembleFields config now tp code ty res rule tid
          msg)).hasKey "alarmTemplateID" = (!(msgTruthy msg) && tidTruthy tid) from by
          simp [Json.hasKey, Json.get, hasKey_assembleFields_templateID]] at h2
    rw [h1] at h2
    simp at h2

/-- Counterexample to C2 as stated: an empty literal message is falsy, so
the assembled request carries neither `message` nor `alarmTemplateID`. -/
theorem message_xor_template_cex :
    Except.map (fun b => (Json.hasKey b "message", Json.hasKey b "alarmTemplateID"))
        (send_alarm cfgEmptyMsg netBase 0 "05.12.2021 19:51:52" "12345" "Probealarm" true).1
      = .ok (false, false)
    ∧ cfgEmptyMsg.alarms.lookup "12345"
        = some (mkRule allUsersRes (some "") none none) := by
  exact ⟨rfl, rfl⟩

/-- Witness for the amended C2 at a template rule whose id resolves to 5. -/
theorem message_xor_template_witness :
    ∃ body logs,
      send_alarm cfgTmpl (netWithTemplates [("T1", 5)]) 0 "tp" "12345" "Probealarm" true
        = (.ok body, logs)
      ∧ Json.hasKey body "message"
          = msgTruthy (mkRule allUsersRes none (some "T1") none).message
      ∧ Json.hasKey body "alarmTemplateID"
          = (!(msgTruthy (mkRule allUsersRes none (some "T1") none).message)
              && tidTruthy (some (Json.num 5)))
      ∧ ¬(Json.hasKey body "message" = true ∧ Json.hasKey body "alarmTemplateID" = true) :=
  message_xor_template cfgTmpl (netWithTemplates [("T1", 5)]) 0 "tp" "12345" "Probealarm" true
    (mkRule allUsersRes none (some "T1") none) (Json.obj [("allUsers", Json.bool true)])
    (some (Json.num 5)) none none [] [] [] rfl rfl rfl rfl rfl

/-- C7 (amended): dispatch interpretation over an all-users rule with a
literal message (no lookups).  A response with a 4xx/5xx status always
makes the run raise, regardless of body content; `raise_for_status`
raises for nothing below 400, so a 3xx response is **not** fatal.  A
sub-400 response whose JSON body carries `success: false` together with
both `error` and `message` fields is logged to the error stream and the
run succeeds; without a `message` field the logging branch itself raises
`KeyError` (see the counterexample). -/
theorem dispatch_status_and_soft_errors (r : Response) :
    (400 ≤ r.status → r.status < 600 →
      ∃ e, (send_alarm cfgPlain (netWithAlarm r) 0 "tp" "12345" "Probealarm" true).1
        = .error e)
    ∧ (∀ (fields : List (String × Json)) (eMsg dMsg : String),
        r.status < 400 → isJsonContentType r.contentType = true →
        r.jsonBody = Json.obj fields →
        objGet fields "success" = some (Json.bool false) →
        objGet fields "error" = some (Json.str eMsg) →
        objGet fields "message" = some (Json.str dMsg) →
        ∃ body, send_alarm cfgPlain (netWithAlarm r) 0 "tp" "12345" "Probealarm" true
          = (.ok body,
             ["Information vom Server Groupalarm.com: " ++ dMsg ++ ", Details: " ++ eMsg])) := by
  constructor
  · intro h4 h6
    have hrs : raise_for_status r = .error (.httpError r.status) := by
      unfold raise_for_status
      rw [if_pos ⟨h4, h6⟩]
    cases hjr : get_json_response r with
    | mk jre jlogs =>
        cases jre with
        | error je =>
            refine ⟨je, ?_⟩
            simp [send_alarm, get_alarm_resources, get_alarm_message,
              get_close_event_time_period, cfgPlain, mkConfig, mkRule, allUsersRes,
              netWithAlarm, hjr]
        | ok jo =>
            refine ⟨.httpError r.status, ?_⟩
            simp [send_alarm, get_alarm_resources, get_alarm_message,
              get_close_event_time_period, cfgPlain, mkConfig, mkRule, allUsersRes,
              netWithAlarm, hjr, hrs]
  · intro fields eMsg dMsg hlt hctt hbody hsucc herr hmsgf
    have hjson : get_json_response r
        = (.ok (some (Json.obj fields)),
           ["Information vom Server Groupalarm.com: " ++ dMsg ++ ", Details: " ++ eMsg]) := by
      unfold get_json_response
      rw [hctt, if_pos rfl, hbody]
      simp only [hsucc, herr, hmsgf, Json.truthy, pyStr]
      rw [if_neg (by simp)]
    have hrs : raise_for_status r = .ok () := by
      unfold raise_for_status
      rw [if_neg (by omega)]
    exact ⟨_, send_alarm_ok_eq cfgPlain (netWithAlarm r) 0 "tp" "12345" "Probealarm" true
      (mkRule allUsersRes (some "Alarm") none none)
      (Json.obj [("allUsers", Json.bool true)]) none (some "Alarm")
      (some (Json.obj fields)) [] []
      ["Information vom Server Groupalarm.com: " ++ dMsg ++ ", Details: " ++ eMsg]
      rfl rfl rfl hjson hrs⟩

/-- Counterexamples to C7 as stated: a 301 response raises nothing
(`raise_for_status` only covers 4xx/5xx), and a 200 JSON body with
`success: false` and an `error` field but no `message` field raises a
`KeyError` instead of being logged quietly. -/
theorem dispatch_status_and_soft_errors_cex :
    exceptIsOk (send_alarm cfgPlain (netWithAlarm ⟨301, none, Json.null⟩) 0 "tp" "12345"
        "Probealarm" true).1 = true
    ∧ (send_alarm cfgPlain (netWithAlarm ⟨200, some "application/json",
        Json.obj [("success", Json.bool false), ("error", Json.str "E")]⟩) 0 "tp" "12345"
        "Probealarm" true).1 = .error (.keyError "message") := by
  exact ⟨rfl, rfl⟩

/-- Witness for the amended C7: status 422 is fatal, and a 200 body with
`success: false`, `error` and `message` is logged without raising. -/
theorem dispatch_status_and_soft_errors_witness :
    (∃ e, (send_alarm cfgPlain (netWithAlarm ⟨422, none, Json.null⟩) 0 "tp" "12345"
        "Probealarm" true).1 = .error e)
    ∧ (∃ body, send_alarm cfgPlain (netWithAlarm ⟨200, some "application/json",
          Json.obj [("success", Json.bool false), ("error", Json.str "E"),
            ("message", Json.str "M")]⟩) 0 "tp" "12345" "Probealarm" true
        = (.ok body,
           ["Information vom Server Groupalarm.com: " ++ "M" ++ ", Details: " ++ "E"])) :=
  ⟨(dispatch_status_and_soft_errors ⟨422, none, Json.null⟩).1 (by decide) (by decide),
   (dispatch_status_and_soft_errors ⟨200, some "application/json",
      Json.obj [("success", Json.bool false), ("error", Json.str "E"),
        ("message", Json.str "M")]⟩).2
    [("success", Json.bool false), ("error", Json.str "E"), ("message", Json.str "M")]
    "E" "M" (by decide) (by decide) rfl rfl rfl rfl⟩

/-- C3: the Users variant is not usable end to end.  The schema embedded
in `YAML_CONFIG_FILE_SCHEMA` knows only `allUsers`/`labels`/`scenarios`/
`units`, so the Schema Validator rejects a configuration whose resources
use a `users` list — even though `get_alarm_resources` has a dedicated
`users` branch that resolves it to `{users: [ids]}` (dead code behind the
validator). -/
theorem users_variant_schema_vs_selector :
    validateConfig usersConfigJson ≠ []
      ∧ (get_alarm_resources "12345" usersConfig (netWithUsers [("John Doe", 42)])).1
          = .ok (Json.obj [("users", Json.arr [Json.num 42])]) := by
  constructor
  · decide
  · rfl

theorem validate_obtain_obj (raw : Json) (hv : validateConfig raw = []) :
    ∃ fields, raw = Json.obj fields := by
  cases raw with
  | null => simp [validateConfig] at hv
  | bool b => simp [validateConfig] at hv
  | num n => simp [validateConfig] at hv
  | str s => simp [validateConfig] at hv
  | arr elems => simp [validateConfig] at hv
  | obj fields => exact ⟨fields, rfl⟩

theorem validate_login_obj (fields : List (String × Json))
    (hv : validateConfig (Json.obj fields) = []) :
    objGet fields "login" = none
      ∨ ∃ lf, objGet fields "login" = some (Json.obj lf) := by
  simp only [validateConfig, List.append_eq_nil] at hv
  obtain ⟨⟨⟨_, hB⟩, _⟩, _⟩ := hv
  cases hl : objGet fields "login" with
  | none => exact Or.inl rfl
  | some l =>
      rw [hl] at hB
      cases l with
      | obj lf => exact Or.inr ⟨lf, rfl⟩
      | null => simp [validateLogin] at hB
      | bool b => simp [validateLogin] at hB
      | num n => simp [validateLogin] at hB
      | str s => simp [validateLogin] at hB
      | arr elems => simp [validateLogin] at hB

/-- C8: for a schema-valid configuration document, each credential
(organization id, API token) must come from exactly one of the `login`
section and the environment: both or neither make `read_config_file` fail
with an `EnvironmentError` (the function takes no network input at all,
so the failure precedes any network call); when each credential is
supplied exactly once, reading succeeds and the returned document carries
the supplied values under `login`. -/
theorem credentials_exactly_one_source (raw : Json) (env : EnvVars)
    (hv : validateConfig raw = []) :
    ((loginField raw "organization-id").isSome ∧ env.organizationId.isSome →
      ∃ m, read_config_file raw env = .error (.environmentError m))
    ∧ (loginField raw "organization-id" = none ∧ env.organizationId = none →
      ∃ m, read_config_file raw env = .error (.environmentError m))
    ∧ ((loginField raw "api-token").isSome ∧ env.apiToken.isSome →
      ∃ m, read_config_file raw env = .error (.environmentError m))
    ∧ (loginField raw "api-token" = none ∧ env.apiToken = none →
      ∃ m, read_config_file raw env = .error (.environmentError m))
    ∧ (((loginField raw "organization-id").isSome ↔ env.organizationId = none)
        → ((loginField raw "api-token").isSome ↔ env.apiToken = none)
        → ∃ cfg, read_config_file raw env = .ok cfg
          ∧ (∀ v, loginField raw "organization-id" = some v
              → loginField cfg "organization-id" = some v)
          ∧ (∀ i, env.organizationId = some i
              → loginField cfg "organization-id" = some (.num i))
          ∧ (∀ v, loginField raw "api-token" = some v → loginField cfg "api-token" = some v)
          ∧ (∀ t, env.apiToken = some t → loginField cfg "api-token" = some (.str t))) := by
  obtain ⟨fields, rfl⟩ := validate_obtain_obj raw hv
  rcases validate_login_obj fields hv with hnone | ⟨lf, hsome⟩
  · -- no login section in the file: both credentials must come from the
    -- environment
    have hot : ∀ v, objGet (objSet ([] : List (String × Json)) "organization-id"
        (Json.num v)) "api-token" = none := by
      intro v
      rw [objGet_objSet_ne _ _ _ _ (by decide)]
      rfl
    cases heo : env.organizationId with
    | none =>
        simp [read_config_file, hv, hnone, loginField, Json.get, objGet,
          objGet_objSet_self, heo]
    | some v =>
        cases het : env.apiToken with
        | none =>
            simp [read_config_file, hv, hnone, loginField, Json.get, objGet,
              objGet_objSet_self, heo, het, hot]
        | some t =>
            have hc1 : objGet (objSet (objSet ([] : List (String × Json)) "organization-id"
                (Json.num v)) "api-token" (Json.str t)) "organization-id"
                = some (Json.num v) := by
              rw [objGet_objSet_ne _ _ _ _ (by decide), objGet_objSet_self]
            have hc2 : objGet (objSet (objSet ([] : List (String × Json)) "organization-id"
                (Json.num v)) "api-token" (Json.str t)) "api-token"
                = some (Json.str t) := objGet_objSet_self _ _ _
            simp [read_config_file, hv, hnone, loginField, Json.get, objGet,
              objGet_objSet_self, heo, het, hot, hc1, hc2]
  · -- the file has a login object `lf`
    have hLF : ∀ k, loginField (Json.obj fields) k = objGet lf k := by
      intro k
      simp [loginField, Json.get, hsome]
    have hcfgl : (objGet fields "login").isSome = true := by
      rw [hsome]
      rfl
    cases ho : objGet lf "organization-id" with
    | some w =>
        cases heo : env.organizationId with
        | some v =>
            simp [read_config_file, hv, hsome, hcfgl, hLF, heo, ho]
        | none =>
            -- organization id from the file; token cases
            cases ht0 : objGet lf "api-token" with
            | some w2 =>
                cases het : env.apiToken with
                | some t =>
                    simp [read_config_file, hv, hsome, hcfgl, hLF, heo, ho, ht0, het]
                | none =>
                    have hc : ∀ k, objGet (objSet fields "login" (Json.obj lf)) k
                        = objGet (objSet fields "login" (Json.obj lf)) k := fun _ => rfl
                    simp [read_config_file, hv, hsome, hcfgl, hLF, heo, ho, ht0, het,
                      loginField, Json.get, objGet_objSet_self]
            | none =>
                cases het : env.apiToken with
                | none =>
                    simp [read_config_file, hv, hsome, hcfgl, hLF, heo, ho, ht0, het]
                | some t =>
                    have hc1 : objGet (objSet lf "api-token" (Json.str t)) "organization-id"
                        = some w := by
                      rw [objGet_objSet_ne _ _ _ _ (by decide), ho]
                    have hc2 : objGet (objSet lf "api-token" (Json.str t)) "api-token"
                        = some (Json.str t) := objGet_objSet_self _ _ _
                    simp [read_config_file, hv, hsome, hcfgl, hLF, heo, ho, ht0, het,
                      loginField, Json.get, objGet_objSet_self, hc1, hc2]
    | none =>
        cases heo : env.organizationId with
        | none =>
            simp [read_config_file, hv, hsome, hcfgl, hLF, heo, ho]
        | some v =>
            -- organization id from the environment; token cases
            have hot : objGet (objSet lf "organization-id" (Json.num v)) "api-token"
                = objGet lf "api-token" := objGet_objSet_ne _ _ _ _ (by decide)
            cases ht0 : objGet lf "api-token" with
            | some w2 =>
                cases het : env.apiToken with
                | some t =>
                    simp [read_config_file, hv, hsome, hcfgl, hLF, heo, ho, ht0, het, hot]
                | none =>
                    have hc1 : objGet (objSet lf "organization-id" (Json.num v))
                        "organization-id" = some (Json.num v) := objGet_objSet_self _ _ _
                    have hc2 : objGet (objSet lf "organization-id" (Json.num v)) "api-token"
                        = some w2 := by rw [hot, ht0]
                    simp [read_config_file, hv, hsome, hcfgl, hLF, heo, ho, ht0, het, hot,
                      loginField, Json.get, objGet_objSet_self, hc1, hc2]
            | none =>
                cases het : env.apiToken with
                | none =>
                    simp [read_config_file, hv, hsome, hcfgl, hLF, heo, ho, ht0, het, hot]
                | some t =>
                    have hc1 : objGet (objSet (objSet lf "organization-id" (Json.num v))
                        "api-token" (Json.str t)) "organization-id" = some (Json.num v) := by
                      rw [objGet_objSet_ne _ _ _ _ (by decide), objGet_objSet_self]
                    have hc2 : objGet (objSet (objSet lf "organization-id" (Json.num v))
                        "api-token" (Json.str t)) "api-token"
                        = some (Json.str t) := objGet_objSet_self _ _ _
                    simp [read_config_file, hv, hsome, hcfgl, hLF, heo, ho, ht0, het, hot,
                      loginField, Json.get, objGet_objSet_self, hc1, hc2]

/-- Witness for C8: a valid config without a login section plus both
environment credentials reads successfully and carries them. -/
theorem credentials_exactly_one_source_witness :
    ∃ cfg, read_config_file (Json.obj [("alarms", Json.obj [])]) ⟨some 5, some "tok"⟩
        = .ok cfg
      ∧ (∀ v, loginField (Json.obj [("alarms", Json.obj [])]) "organization-id" = some v
          → loginField cfg "organization-id" = some v)
      ∧ (∀ i, (⟨some 5, some "tok"⟩ : EnvVars).organizationId = some i
          → loginField cfg "organization-id" = some (.num i))
      ∧ (∀ v, loginField (Json.obj [("alarms", Json.obj [])]) "api-token" = some v
          → loginField cfg "api-token" = some v)
      ∧ (∀ t, (⟨some 5, some "tok"⟩ : EnvVars).apiToken = some t
          → loginField cfg "api-token" = some (.str t)) :=
  (credentials_exactly_one_source (Json.obj [("alarms", Json.obj [])])
      ⟨some 5, some "tok"⟩ (by decide)).2.2.2.2 (by decide) (by decide)

end GA
